import Mathlib

/-!
Verification of the T24 arborist lead-management system (frontend sources
plus the compiled backend lead model) against its natural-language
specification.  Monetary amounts are modelled as exact rationals; JS
`parseFloat(item.cost) || 0` is modelled by the item already carrying a
rational cost.  Timestamps are natural numbers.
-/

/-- A quote line item as built by both CreateQuote pages:
`{ quantity, tree_species, operation_type, custom_operation, cost }`.
Only the fields used by the total/commission computation are carried. -/
structure QuoteItem where
  quantity : Nat
  cost : ℚ
  deriving DecidableEq, Repr

namespace T24CreateQuote

/-- Embeds src/t24_complete_system/frontend/src/pages/partner/CreateQuote.js
lines 81-86: `const total = quoteItems.reduce((sum, item) => sum + (parseFloat(item.cost) || 0), 0)`.
Note it adds `item.cost` only; `item.quantity` does not occur. -/
def totalAmount (items : List QuoteItem) : ℚ :=
  items.foldl (fun sum item => sum + item.cost) 0

/-- Embeds `setCommissionAmount(total * 0.1)` from the same effect. -/
def commissionAmount (items : List QuoteItem) : ℚ :=
  totalAmount items * (1 / 10)

end T24CreateQuote

namespace AppCreateQuote

/-- Embeds src/frontend/src/App.js lines 234-239:
`const total = items.reduce((sum, item) => sum + (item.quantity * item.cost), 0)`. -/
def totalAmount (items : List QuoteItem) : ℚ :=
  items.foldl (fun sum item => sum + (item.quantity : ℚ) * item.cost) 0

/-- Embeds `setCommissionAmount(total * 0.1)` from the same effect. -/
def commissionAmount (items : List QuoteItem) : ℚ :=
  totalAmount items * (1 / 10)

end AppCreateQuote

/-- Round half up to two decimal places, the example rounding rule named by
the spec sentence "rounded consistently (define and test the rounding rule,
e.g. round-half-up to 2 decimals)". -/
def roundHalfUpTo2dp (q : ℚ) : ℚ :=
  (⌊q * 100 + 1 / 2⌋ : ℚ) / 100

/-- Folding addition of a projection equals the accumulator plus the sum of
the mapped list. -/
theorem foldl_add_proj_eq_sum (f : QuoteItem → ℚ) (items : List QuoteItem) (a : ℚ) :
    items.foldl (fun sum it => sum + f it) a = a + (items.map f).sum := by
  induction items generalizing a with
  | nil => simp
  | cons hd tl ih => simp [ih, add_assoc]

theorem t24_totalAmount_eq_sum (items : List QuoteItem) :
    T24CreateQuote.totalAmount items = (items.map (fun it => it.cost)).sum := by
  have h := foldl_add_proj_eq_sum (fun it => it.cost) items 0
  simpa [T24CreateQuote.totalAmount] using h

theorem app_totalAmount_eq_sum (items : List QuoteItem) :
    AppCreateQuote.totalAmount items = (items.map (fun it => (it.quantity : ℚ) * it.cost)).sum := by
  have h := foldl_add_proj_eq_sum (fun it => (it.quantity : ℚ) * it.cost) items 0
  simpa [AppCreateQuote.totalAmount] using h

/-- C1: the claim asserts total_amount = sum of cost times quantity, and that
the items [{qty 2, cost 100}, {qty 1, cost 50}] yield total 250 and
commission 25.  The t24_complete_system CreateQuote page violates this: it
sums `item.cost` alone and yields total 150 and commission 15 on that input,
while the CreateQuote page bundled in src/frontend/src/App.js multiplies
quantity by cost and yields 250 and 25 as the claim states. -/
theorem c1_t24_total_drops_quantity_at_spec_example :
    T24CreateQuote.totalAmount [⟨2, 100⟩, ⟨1, 50⟩] = 150 ∧
    T24CreateQuote.commissionAmount [⟨2, 100⟩, ⟨1, 50⟩] = 15 ∧
    AppCreateQuote.totalAmount [⟨2, 100⟩, ⟨1, 50⟩] = 250 ∧
    AppCreateQuote.commissionAmount [⟨2, 100⟩, ⟨1, 50⟩] = 25 := by
  refine ⟨?_, ?_, ?_, ?_⟩ <;>
    norm_num [T24CreateQuote.totalAmount, T24CreateQuote.commissionAmount,
      AppCreateQuote.totalAmount, AppCreateQuote.commissionAmount, List.foldl]

/-- C2 counterexample: with the single item {qty 1, cost 0.05} the code
stores commission_amount = 0.005, which is not the round-half-up-to-2-decimals
rounding of 10 percent of the total (that would be 0.01): the code applies no
rounding to 2 decimals at all. -/
theorem c2_counterexample_no_2dp_rounding :
    T24CreateQuote.commissionAmount [⟨1, 1 / 20⟩] = 1 / 200 ∧
    roundHalfUpTo2dp (T24CreateQuote.totalAmount [⟨1, 1 / 20⟩] * (1 / 10)) = 1 / 100 ∧
    T24CreateQuote.commissionAmount [⟨1, 1 / 20⟩] ≠
      roundHalfUpTo2dp (T24CreateQuote.totalAmount [⟨1, 1 / 20⟩] * (1 / 10)) := by
  have h1 : T24CreateQuote.totalAmount [⟨1, 1 / 20⟩] = 1 / 20 := by
    norm_num [T24CreateQuote.totalAmount, List.foldl]
  have h2 : roundHalfUpTo2dp ((1 : ℚ) / 20 * (1 / 10)) = 1 / 100 := by
    have : ((1 : ℚ) / 20 * (1 / 10) * 100 + 1 / 2) = 1 := by norm_num
    rw [roundHalfUpTo2dp, this]
    norm_num
  refine ⟨?_, ?_, ?_⟩
  · norm_num [T24CreateQuote.commissionAmount, h1]
  · rw [h1]; exact h2
  · rw [T24CreateQuote.commissionAmount, h1, h2]; norm_num

/-- C2 (amended): in both CreateQuote implementations commission_amount is
exactly one tenth of total_amount, with no rounding applied: for every item
list, commission equals the sum of the per-item amounts divided by 10. -/
theorem c2_commission_exact_tenth (items : List QuoteItem) :
    T24CreateQuote.commissionAmount items = (items.map (fun it => it.cost)).sum / 10 ∧
    AppCreateQuote.commissionAmount items =
      (items.map (fun it => (it.quantity : ℚ) * it.cost)).sum / 10 := by
  constructor
  · rw [T24CreateQuote.commissionAmount, t24_totalAmount_eq_sum]; ring
  · rw [AppCreateQuote.commissionAmount, app_totalAmount_eq_sum]; ring

/-- C9 counterexample: on the single item {qty 2, cost 100} the
t24_complete_system page computes total 100 while the App.js page computes
total 200, so the two quote-creation implementations do not agree. -/
theorem c9_counterexample_totals_differ :
    T24CreateQuote.totalAmount [⟨2, 100⟩] = 100 ∧
    AppCreateQuote.totalAmount [⟨2, 100⟩] = 200 ∧
    T24CreateQuote.totalAmount [⟨2, 100⟩] ≠ AppCreateQuote.totalAmount [⟨2, 100⟩] := by
  refine ⟨?_, ?_, ?_⟩ <;>
    norm_num [T24CreateQuote.totalAmount, AppCreateQuote.totalAmount, List.foldl]

/-- C9 (amended): the two implementations agree exactly on item lists in
which every item has quantity 1; in general the t24 page ignores quantity. -/
theorem c9_totals_agree_when_quantities_one (items : List QuoteItem)
    (h : ∀ it ∈ items, it.quantity = 1) :
    T24CreateQuote.totalAmount items = AppCreateQuote.totalAmount items := by
  rw [t24_totalAmount_eq_sum, app_totalAmount_eq_sum]
  congr 1
  exact List.map_congr_left (fun it hit => by rw [h it hit]; norm_num)

/-- C9 witness: the amended equivalence holds on a concrete all-quantity-one
item list. -/
theorem c9_totals_agree_witness :
    T24CreateQuote.totalAmount [⟨1, 100⟩, ⟨1, 50⟩] =
      AppCreateQuote.totalAmount [⟨1, 100⟩, ⟨1, 50⟩] :=
  c9_totals_agree_when_quantities_one [⟨1, 100⟩, ⟨1, 50⟩] (by
    intro it hit
    simp only [List.mem_cons, List.not_mem_nil, or_false] at hit
    rcases hit with h | h <;> rw [h])

/-- Lead status enum, decompiled from the backend model
src/unnamed/part_009 (app/models/lead.pyc): new, assigned, accepted,
rejected, quoted, approved, declined, completed, expired. -/
inductive LeadStatus where
  | new | assigned | accepted | rejected | quoted
  | approved | declined | completed | expired
  deriving DecidableEq, Repr

/-- Lead record, following the column list recovered from
src/unnamed/part_009; billing and view-count columns not used by any claim
are omitted. -/
structure Lead where
  id : Nat
  customer_name : String
  customer_email : String
  customer_phone : String
  address : String
  city : String
  postal_code : String
  region : String
  summary : String
  details : String
  status : LeadStatus
  assigned_partner_id : Option Nat
  assigned_at : Option Nat
  accepted_at : Option Nat
  expires_at : Option Nat
  deriving DecidableEq, Repr

/-- Error taxonomy of the lifecycle service (spec section 7). -/
inductive ApiError where
  | notFoundError | invalidStateError | forbiddenError | validationError
  deriving DecidableEq, Repr

/-- Persistent store: the lead rows and the set of partner ids. -/
structure Store where
  leads : List Lead
  partners : List Nat
  deriving Repr

def findLead (s : Store) (leadId : Nat) : Option Lead :=
  s.leads.find? (fun l => l.id == leadId)

/-- Modelled from the spec: the configured lead expiry window
LEAD_EXPIRY_HOURS; its concrete value is not fixed by the spec. -/
def LEAD_EXPIRY_HOURS : Nat := 24

/-- Per-row conditional update applied by assign: only the row with the
given id is rewritten. -/
def assignUpdate (leadId partnerId now : Nat) (l : Lead) : Lead :=
  if l.id == leadId then
    { l with status := LeadStatus.assigned,
             assigned_partner_id := some partnerId,
             assigned_at := some now,
             expires_at := some (now + LEAD_EXPIRY_HOURS) }
  else l

/-- Modelled from the spec: the backend assign endpoint
(POST /api/v1/admin/leads/.../assign/...) is absent from src; only its
frontend caller (admin Leads.js handleAssign) and the compiled lead model
are present.  Per spec sections 4.1 and 5: a single atomic conditional
update that requires status == new, sets assigned_partner_id, status,
assigned_at and expires_at = now + LEAD_EXPIRY_HOURS, and fails with
InvalidStateError when the lead is not new or NotFoundError when the lead
or partner is absent. -/
def assign (s : Store) (leadId partnerId now : Nat) : Except ApiError Store :=
  match findLead s leadId with
  | none => .error .notFoundError
  | some lead =>
    if partnerId ∈ s.partners then
      if lead.status = LeadStatus.new then
        .ok { s with leads := s.leads.map (assignUpdate leadId partnerId now) }
      else .error .invalidStateError
    else .error .notFoundError

theorem assignUpdate_id (leadId partnerId now : Nat) (l : Lead) :
    (assignUpdate leadId partnerId now l).id = l.id := by
  unfold assignUpdate
  split <;> rfl

theorem assignUpdate_hit (leadId partnerId now : Nat) (l : Lead)
    (h : (l.id == leadId) = true) :
    assignUpdate leadId partnerId now l =
      { l with status := LeadStatus.assigned,
               assigned_partner_id := some partnerId,
               assigned_at := some now,
               expires_at := some (now + LEAD_EXPIRY_HOURS) } := by
  simp [assignUpdate, h]

/-- Finding by id commutes with mapping an id-preserving row update. -/
theorem find_map_of_id_preserving (f : Lead → Lead) (hf : ∀ l, (f l).id = l.id)
    (leads : List Lead) (leadId : Nat) :
    (leads.map f).find? (fun l => l.id == leadId) =
      (leads.find? (fun l => l.id == leadId)).map f := by
  induction leads with
  | nil => rfl
  | cons hd tl ih =>
    by_cases h : (hd.id == leadId) = true
    · simp [List.find?_cons, hf, h]
    · simp only [Bool.not_eq_true] at h
      simp [List.find?_cons, hf, h, ih]

/-- A lead returned by an id lookup carries the looked-up id. -/
theorem find_id_matches (leads : List Lead) (leadId : Nat) (lead : Lead)
    (h : leads.find? (fun l => l.id == leadId) = some lead) :
    (lead.id == leadId) = true := by
  induction leads with
  | nil => cases h
  | cons hd tl ih =>
    simp only [List.find?] at h
    cases hp : (hd.id == leadId) with
    | true =>
      rw [hp] at h
      cases h
      exact hp
    | false =>
      rw [hp] at h
      exact ih h

theorem findLead_after_assign (s : Store) (leadId partnerId now : Nat)
    (lead : Lead) (hfind : findLead s leadId = some lead) :
    findLead { s with leads := s.leads.map (assignUpdate leadId partnerId now) } leadId =
      some { lead with status := LeadStatus.assigned,
                       assigned_partner_id := some partnerId,
                       assigned_at := some now,
                       expires_at := some (now + LEAD_EXPIRY_HOURS) } := by
  have hfind2 : s.leads.find? (fun l => l.id == leadId) = some lead := hfind
  have hid : (lead.id == leadId) = true := find_id_matches s.leads leadId lead hfind2
  show (s.leads.map (assignUpdate leadId partnerId now)).find? (fun l => l.id == leadId) = _
  rw [find_map_of_id_preserving (assignUpdate leadId partnerId now)
        (assignUpdate_id leadId partnerId now), hfind2]
  simp [assignUpdate_hit leadId partnerId now lead hid]

theorem assign_ok_of_new (s : Store) (leadId partnerId now : Nat) (lead : Lead)
    (hfind : findLead s leadId = some lead) (hp : partnerId ∈ s.partners)
    (hnew : lead.status = LeadStatus.new) :
    assign s leadId partnerId now =
      .ok { s with leads := s.leads.map (assignUpdate leadId partnerId now) } := by
  simp [assign, hfind, hp, hnew]

theorem assign_error_of_not_new (s : Store) (leadId partnerId now : Nat) (lead : Lead)
    (hfind : findLead s leadId = some lead) (hp : partnerId ∈ s.partners)
    (hne : lead.status ≠ LeadStatus.new) :
    assign s leadId partnerId now = .error .invalidStateError := by
  simp [assign, hfind, hp, hne]

/-- C3: assign succeeds only from status new, setting assigned_partner_id,
status assigned, assigned_at = now and expires_at = now + LEAD_EXPIRY_HOURS;
a lead not in status new yields InvalidStateError, and an absent lead or
partner yields NotFoundError. -/
theorem c3_assign_contract (s : Store) (leadId partnerId now : Nat) :
    (findLead s leadId = none →
      assign s leadId partnerId now = Except.error ApiError.notFoundError) ∧
    (∀ lead, findLead s leadId = some lead → partnerId ∉ s.partners →
      assign s leadId partnerId now = Except.error ApiError.notFoundError) ∧
    (∀ lead, findLead s leadId = some lead → partnerId ∈ s.partners →
      lead.status ≠ LeadStatus.new →
      assign s leadId partnerId now = Except.error ApiError.invalidStateError) ∧
    (∀ lead, findLead s leadId = some lead → partnerId ∈ s.partners →
      lead.status = LeadStatus.new →
      assign s leadId partnerId now =
        Except.ok { s with leads := s.leads.map (assignUpdate leadId partnerId now) } ∧
      findLead { s with leads := s.leads.map (assignUpdate leadId partnerId now) } leadId =
        some { lead with status := LeadStatus.assigned,
                         assigned_partner_id := some partnerId,
                         assigned_at := some now,
                         expires_at := some (now + LEAD_EXPIRY_HOURS) }) := by
  refine ⟨?_, ?_, ?_, ?_⟩
  · intro h
    simp [assign, h]
  · intro lead hfind hp
    simp [assign, hfind, hp]
  · intro lead hfind hp hne
    exact assign_error_of_not_new s leadId partnerId now lead hfind hp hne
  · intro lead hfind hp hnew
    exact ⟨assign_ok_of_new s leadId partnerId now lead hfind hp hnew,
      findLead_after_assign s leadId partnerId now lead hfind⟩

def c3SampleLead : Lead :=
  { id := 1, customer_name := "Anna Berg", customer_email := "anna@example.se",
    customer_phone := "0701234567", address := "Storgatan 1", city := "Umea",
    postal_code := "90325", region := "Vasterbotten", summary := "Fell a pine",
    details := "Large pine close to the house", status := LeadStatus.new,
    assigned_partner_id := none, assigned_at := none, accepted_at := none,
    expires_at := none }

def c3SampleStore : Store := { leads := [c3SampleLead], partners := [7] }

/-- C3 witness: assigning partner 7 to the concrete new lead 1 at time 100
succeeds and stamps all four fields. -/
theorem c3_assign_contract_witness :
    assign c3SampleStore 1 7 100 =
      Except.ok { c3SampleStore with
        leads := c3SampleStore.leads.map (assignUpdate 1 7 100) } ∧
    findLead { c3SampleStore with
        leads := c3SampleStore.leads.map (assignUpdate 1 7 100) } 1 =
      some { c3SampleLead with status := LeadStatus.assigned,
                               assigned_partner_id := some 7,
                               assigned_at := some 100,
                               expires_at := some (100 + LEAD_EXPIRY_HOURS) } :=
  (c3_assign_contract c3SampleStore 1 7 100).2.2.2 c3SampleLead rfl
    (by decide) rfl

namespace PartnerLeads

/-- Embeds src/unnamed/part_005 lines 605-620: in the partner lead list the
Accept and Reject buttons are rendered exactly when
`lead.status === 'assigned'`; `expires_at` is not consulted. -/
def showsAcceptReject (lead : Lead) : Bool :=
  decide (lead.status = LeadStatus.assigned)

end PartnerLeads

def c4ExpiredLead : Lead :=
  { id := 3, customer_name := "Bo Ek", customer_email := "bo@example.se",
    customer_phone := "0700000000", address := "Lillgatan 2", city := "Lund",
    postal_code := "22222", region := "Skane", summary := "Prune an oak",
    details := "Oak by the road", status := LeadStatus.assigned,
    assigned_partner_id := some 7, assigned_at := some 10, accepted_at := none,
    expires_at := some 20 }

/-- C4 counterexample: a lead whose expires_at (20) has passed (now = 100)
but that has not been swept still has status assigned, and the partner view
presents the Accept/Reject actions for it, contradicting the claim that an
expired lead is never presented as assigned for a partner action. -/
theorem c4_counterexample_expired_lead_still_actionable :
    c4ExpiredLead.status = LeadStatus.assigned ∧
    c4ExpiredLead.expires_at = some 20 ∧ 20 < 100 ∧
    PartnerLeads.showsAcceptReject c4ExpiredLead = true :=
  ⟨rfl, rfl, by norm_num, rfl⟩

/-- C4 (amended): the partner view gates Accept/Reject on status alone: the
buttons show iff status is assigned, and the gate is unchanged under any
modification of expires_at, so an expired-but-unswept lead is still
presented for accept/reject. -/
theorem c4_gate_depends_only_on_status (lead : Lead) (t : Option Nat) :
    (PartnerLeads.showsAcceptReject lead = true ↔ lead.status = LeadStatus.assigned) ∧
    PartnerLeads.showsAcceptReject { lead with expires_at := t } =
      PartnerLeads.showsAcceptReject lead :=
  ⟨by simp [PartnerLeads.showsAcceptReject], rfl⟩

/-- C8: two assign calls race on the same new lead; each call is the single
atomic conditional update `assign`, so the interleavings are the two
sequential orders, and in each order the first call succeeds and the second
observes InvalidStateError, never a partial assignment. -/
theorem c8_exactly_one_racing_assign_succeeds (s : Store)
    (leadId p1 p2 now1 now2 : Nat) (lead : Lead)
    (hfind : findLead s leadId = some lead)
    (hnew : lead.status = LeadStatus.new)
    (hp1 : p1 ∈ s.partners) (hp2 : p2 ∈ s.partners) :
    (∃ s2, assign s leadId p1 now1 = Except.ok s2 ∧
      assign s2 leadId p2 now2 = Except.error ApiError.invalidStateError) ∧
    (∃ s2, assign s leadId p2 now2 = Except.ok s2 ∧
      assign s2 leadId p1 now1 = Except.error ApiError.invalidStateError) := by
  constructor
  · refine ⟨_, assign_ok_of_new s leadId p1 now1 lead hfind hp1 hnew, ?_⟩
    have hfind2 := findLead_after_assign s leadId p1 now1 lead hfind
    exact assign_error_of_not_new _ leadId p2 now2 _ hfind2 hp2 (by simp)
  · refine ⟨_, assign_ok_of_new s leadId p2 now2 lead hfind hp2 hnew, ?_⟩
    have hfind2 := findLead_after_assign s leadId p2 now2 lead hfind
    exact assign_error_of_not_new _ leadId p1 now1 _ hfind2 hp1 (by simp)

def c8SampleLead : Lead :=
  { id := 2, customer_name := "Cia Alm", customer_email := "cia@example.se",
    customer_phone := "0709999999", address := "Algatan 3", city := "Umea",
    postal_code := "90325", region := "Vasterbotten", summary := "Remove birch",
    details := "Birch over the garage", status := LeadStatus.new,
    assigned_partner_id := none, assigned_at := none, accepted_at := none,
    expires_at := none }

def c8SampleStore : Store := { leads := [c8SampleLead], partners := [7, 9] }

/-- C8 witness: the race property instantiated on a concrete store with one
new lead and two partners. -/
theorem c8_exactly_one_racing_assign_succeeds_witness :
    (∃ s2, assign c8SampleStore 2 7 50 = Except.ok s2 ∧
      assign s2 2 9 51 = Except.error ApiError.invalidStateError) ∧
    (∃ s2, assign c8SampleStore 2 9 51 = Except.ok s2 ∧
      assign s2 2 7 50 = Except.error ApiError.invalidStateError) :=
  c8_exactly_one_racing_assign_succeeds c8SampleStore 2 7 9 50 51 c8SampleLead
    rfl rfl (by decide) (by decide)

/-- Quote status enum per the spec data model: draft, sent, approved,
declined, expired. -/
inductive QuoteStatus where
  | draft | sent | approved | declined | expired
  deriving DecidableEq, Repr

structure Quote where
  id : Nat
  lead_id : Nat
  status : QuoteStatus
  total_amount : ℚ
  commission_amount : ℚ
  sent_at : Option Nat
  customer_response_at : Option Nat
  deriving DecidableEq, Repr

/-- Customer decision carried by POST /customer-portal/quote/.../status. -/
inductive Decision where
  | approved | declined
  deriving DecidableEq, Repr

def decisionStatus : Decision → QuoteStatus
  | Decision.approved => QuoteStatus.approved
  | Decision.declined => QuoteStatus.declined

/-- Modelled from the spec: the backend customer response handler
(POST /api/v1/customer-portal/quote/.../status) is absent from src; only its
frontend caller updateQuoteStatus (the CustomerPortalContext bundled in
ResponsiveForm.js) is present.  Per spec section 4.2: respond requires
status == sent, sets the decided status and customer_response_at, and fails
with InvalidStateError from any other state. -/
def respond (q : Quote) (decision : Decision) (now : Nat) : Except ApiError Quote :=
  if q.status = QuoteStatus.sent then
    Except.ok { q with status := decisionStatus decision,
                       customer_response_at := some now }
  else Except.error ApiError.invalidStateError

/-- C5: respond on a quote already approved or declined fails with
InvalidStateError for every decision value, and returns no updated quote, so
the stored status and response timestamp are not overwritten. -/
theorem c5_respond_terminal_fails (q : Quote) (decision : Decision) (now : Nat)
    (h : q.status = QuoteStatus.approved ∨ q.status = QuoteStatus.declined) :
    respond q decision now = Except.error ApiError.invalidStateError := by
  rcases h with h | h <;> simp [respond, h]

def c5ApprovedQuote : Quote :=
  { id := 11, lead_id := 1, status := QuoteStatus.approved,
    total_amount := 250, commission_amount := 25,
    sent_at := some 40, customer_response_at := some 60 }

/-- C5 witness: re-responding declined to a concrete already-approved quote
fails with InvalidStateError. -/
theorem c5_respond_terminal_fails_witness :
    respond c5ApprovedQuote Decision.declined 70 =
      Except.error ApiError.invalidStateError :=
  c5_respond_terminal_fails c5ApprovedQuote Decision.declined 70 (Or.inl rfl)

/-- Verification result shape (valid, customer_id, quote_id) returned by the
verify-token endpoint. -/
structure VerifyResult where
  valid : Bool
  customer_id : Option Nat
  quote_id : Option Nat
  deriving DecidableEq, Repr

/-- An issued customer access token bound to (customer, quote) with an
expiry instant. -/
structure TokenRecord where
  token : String
  customer_id : Nat
  quote_id : Nat
  token_expires_at : Nat
  deriving DecidableEq, Repr

/-- Modelled from the spec: the backend verify-token endpoint
(POST /api/v1/customer-portal/verify-token) is absent from src; only its
frontend caller verifyCustomerAccessToken and the login gate are present.
Per spec section 4.3: verify returns (valid, customer_id, quote_id) and
fails closed: an unknown or expired token yields valid = false; it is a
total function, so it never raises into the caller. -/
def verifyToken (issued : List TokenRecord) (tok : String) (now : Nat) : VerifyResult :=
  match issued.find? (fun r => r.token == tok) with
  | none => { valid := false, customer_id := none, quote_id := none }
  | some r =>
    if now ≤ r.token_expires_at then
      { valid := true, customer_id := some r.customer_id,
        quote_id := some r.quote_id }
    else { valid := false, customer_id := none, quote_id := none }

namespace CustomerPortalLogin

/-- Embeds handleSubmit of CustomerPortalLogin.js lines 28-39: access is
granted only when a verification result was returned and result.valid holds;
a transport error (modelled as an absent result) grants nothing. -/
def loginGrants (result : Option VerifyResult) : Bool :=
  match result with
  | some r => r.valid
  | none => false

end CustomerPortalLogin

/-- C6: verify always returns a (valid, customer_id, quote_id) triple and
fails closed: an unknown token and an expired token both yield valid =
false, and the login gate that consumes it grants no access on any failure,
including a raised transport error, which reaches the gate as an absent
result rather than an exception. -/
theorem c6_verify_fails_closed (issued : List TokenRecord) (tok : String) (now : Nat) :
    (issued.find? (fun r => r.token == tok) = none →
      verifyToken issued tok now =
        { valid := false, customer_id := none, quote_id := none }) ∧
    (∀ r, issued.find? (fun r2 => r2.token == tok) = some r →
      r.token_expires_at < now →
      verifyToken issued tok now =
        { valid := false, customer_id := none, quote_id := none }) ∧
    ((verifyToken issued tok now).valid = false →
      CustomerPortalLogin.loginGrants (some (verifyToken issued tok now)) = false) ∧
    CustomerPortalLogin.loginGrants none = false := by
  refine ⟨?_, ?_, ?_, rfl⟩
  · intro h
    simp [verifyToken, h]
  · intro r hfind hexp
    have hnle : ¬ now ≤ r.token_expires_at := Nat.not_le.mpr hexp
    simp [verifyToken, hfind, hnle]
  · intro h
    simp [CustomerPortalLogin.loginGrants, h]

/-- C6 witness: an unknown token against an empty token store verifies as
invalid. -/
theorem c6_verify_fails_closed_witness :
    verifyToken [] "bogus-token" 5 =
      { valid := false, customer_id := none, quote_id := none } :=
  (c6_verify_fails_closed [] "bogus-token" 5).1 rfl

/-- An outgoing HTTP request as assembled by the frontend: path, body
key-value pairs, and the optional Authorization header. -/
structure HttpRequest where
  url : String
  body : List (String × String)
  authHeader : Option String
  deriving DecidableEq, Repr

namespace CustomerPortalContext

/-- Embeds updateQuoteStatus of ResponsiveForm.js lines 239-251: it returns
early when no staff token is present, and otherwise posts to the
customer-portal status endpoint with the staff JWT as the Bearer
credential. -/
def updateQuoteStatusRequest (staffToken : Option String) (quoteId : Nat)
    (decision feedback : String) : Option HttpRequest :=
  match staffToken with
  | none => none
  | some tok =>
    some { url := "/api/v1/customer-portal/quote/" ++ toString quoteId ++ "/status",
           body := [("status", decision), ("feedback", feedback)],
           authHeader := some ("Bearer " ++ tok) }

/-- Embeds fetchCustomerQuotes of ResponsiveForm.js lines 195-213: the same
staff-token guard and Bearer header on the customer-portal quotes
endpoint. -/
def fetchCustomerQuotesRequest (staffToken : Option String)
    (customerId : Nat) : Option HttpRequest :=
  match staffToken with
  | none => none
  | some tok =>
    some { url := "/api/v1/customer-portal/quotes/" ++ toString customerId,
           body := [],
           authHeader := some ("Bearer " ++ tok) }

/-- Embeds verifyCustomerAccessToken of ResponsiveForm.js lines 299-316: the
verify-token request carries the customer access token in the body and no
Authorization header. -/
def verifyTokenRequest (accessToken : String) : HttpRequest :=
  { url := "/api/v1/customer-portal/verify-token",
    body := [("access_token", accessToken)],
    authHeader := none }

end CustomerPortalContext

/-- C7 counterexample: with a concrete staff JWT present, the frontend
request to the customer-portal status endpoint carries that staff JWT as its
Bearer credential, so in the code under src the staff JWT is the credential
presented to a customer-portal endpoint, contradicting the claimed
independence of the two trust domains. -/
theorem c7_counterexample_staff_jwt_sent_to_portal :
    CustomerPortalContext.updateQuoteStatusRequest (some "staff.jwt.xyz") 7
        "approved" "" =
      some { url := "/api/v1/customer-portal/quote/7/status",
             body := [("status", "approved"), ("feedback", "")],
             authHeader := some "Bearer staff.jwt.xyz" } := rfl

/-- C7 (amended): the trust domains are not independent in the code under
src: the customer-portal quote-fetch and status-update requests are only
formed when a staff JWT is present and always carry it as the Bearer
credential; only the verify-token request is credential-free, carrying the
customer access token in its body. -/
theorem c7_staff_jwt_is_portal_credential (tok : String) (quoteId customerId : Nat)
    (decision feedback accessToken : String) :
    CustomerPortalContext.updateQuoteStatusRequest none quoteId decision feedback = none ∧
    CustomerPortalContext.fetchCustomerQuotesRequest none customerId = none ∧
    (CustomerPortalContext.updateQuoteStatusRequest (some tok) quoteId decision
        feedback).map HttpRequest.authHeader = some (some ("Bearer " ++ tok)) ∧
    (CustomerPortalContext.fetchCustomerQuotesRequest (some tok)
        customerId).map HttpRequest.authHeader = some (some ("Bearer " ++ tok)) ∧
    (CustomerPortalContext.verifyTokenRequest accessToken).authHeader = none ∧
    (CustomerPortalContext.verifyTokenRequest accessToken).body =
      [("access_token", accessToken)] :=
  ⟨rfl, rfl, rfl, rfl, rfl, rfl⟩

/-- The customer-information block of the partner lead-details modal: either
the full contact/address/details block or the static locked warning box. -/
inductive CustomerInfoBlock where
  | full (customer_name customer_email customer_phone address city postal_code
      region details : String)
  | locked
  deriving DecidableEq, Repr

/-- What the lead-details modal renders: summary and status always, plus the
gated customer-information block. -/
structure LeadDetailsView where
  summary : String
  info : CustomerInfoBlock
  status : LeadStatus
  deriving DecidableEq, Repr

namespace PartnerLeads

/-- Embeds the lead-details modal of src/unnamed/part_005 lines 665-711: the
summary and status always render; the customer block renders only when
status is accepted, quoted or approved, and otherwise the static
accept-to-view warning renders. -/
def detailsModal (lead : Lead) : LeadDetailsView :=
  { summary := lead.summary,
    info :=
      if lead.status = LeadStatus.accepted ∨ lead.status = LeadStatus.quoted ∨
          lead.status = LeadStatus.approved then
        CustomerInfoBlock.full lead.customer_name lead.customer_email
          lead.customer_phone lead.address lead.city lead.postal_code
          lead.region lead.details
      else CustomerInfoBlock.locked,
    status := lead.status }

end PartnerLeads

/-- C10: for a lead whose status is not accepted, quoted or approved, the
partner details modal renders the locked block in place of any customer
contact information, address or details, and its entire rendered output is
unchanged under any substitution of those fields. -/
theorem c10_modal_hides_customer_data (lead : Lead)
    (h : ¬(lead.status = LeadStatus.accepted ∨ lead.status = LeadStatus.quoted ∨
      lead.status = LeadStatus.approved)) :
    (PartnerLeads.detailsModal lead).info = CustomerInfoBlock.locked ∧
    ∀ nm em ph ad ci pc rg dt,
      PartnerLeads.detailsModal
        { lead with customer_name := nm, customer_email := em,
                    customer_phone := ph, address := ad, city := ci,
                    postal_code := pc, region := rg, details := dt } =
        PartnerLeads.detailsModal lead := by
  constructor
  · simp [PartnerLeads.detailsModal, h]
  · intro nm em ph ad ci pc rg dt
    simp [PartnerLeads.detailsModal, h]

def c10NewLead : Lead :=
  { id := 4, customer_name := "Dag Ask", customer_email := "dag@example.se",
    customer_phone := "0701111111", address := "Ekgatan 4", city := "Lund",
    postal_code := "22223", region := "Skane", summary := "Stump grinding",
    details := "Three stumps", status := LeadStatus.new,
    assigned_partner_id := none, assigned_at := none, accepted_at := none,
    expires_at := none }

/-- C10 witness: the modal for a concrete new lead renders the locked block
and is insensitive to a full substitution of its customer fields. -/
theorem c10_modal_hides_customer_data_witness :
    (PartnerLeads.detailsModal c10NewLead).info = CustomerInfoBlock.locked ∧
    PartnerLeads.detailsModal
      { c10NewLead with customer_name := "N", customer_email := "E",
                        customer_phone := "P", address := "A", city := "C",
                        postal_code := "Z", region := "R", details := "D" } =
      PartnerLeads.detailsModal c10NewLead :=
  ⟨(c10_modal_hides_customer_data c10NewLead (by decide)).1,
   (c10_modal_hides_customer_data c10NewLead (by decide)).2 "N" "E" "P" "A" "C" "Z" "R" "D"⟩
